import Mathlib

/-!
Shallow embedding of the account/token lifecycle service
(`src/routes/accounts.py`, `src/routes/profiles.py`,
`src/validation/profile.py`) and proofs about its claims.

The transactional record store is modelled as lists of rows; SQLAlchemy
`select ... where` single-row lookups become `List.find?`, `db.delete`
becomes `List.erase`, bulk deletes become `List.filter`, inserts append.
`datetime.utcnow()` is an explicit `now : Nat` parameter.  Components of
the repository that are imported but whose modules are not present under
`src/` (password hashing, JWT codec, ORM model classes, exception types,
validators) are modelled from the spec, as flagged in their doc comments.
-/

namespace Accounts

/-- Modelled from the spec: the group/role reference of a credential
(module `src/database/models/accounts.py` is not under `src/`). -/
inductive UserGroupEnum where
  | user
  | admin
  | moderator
deriving DecidableEq

/-- Modelled from the spec: the type discriminator of a signed bearer
token (access vs refresh). -/
inductive TokenType where
  | access
  | refresh
deriving DecidableEq

/-- Error taxonomy of the lifecycle operations.  Constructors embed the
exception classes raised by the routes: `IncorrectCredentialsError`,
`InactiveUserError`, `TokenExpiredError`, the `TokenValidationException`
raised by logout (called `TokenNotFound` in the spec), the spec's
`TokenMalformed` / `TokenTypeMismatch` / `WeakPassword` / `DuplicateEmail`,
and plain `HTTPException(code, detail)`. -/
inductive ApiError where
  | incorrectCredentials
  | inactiveUser
  | tokenExpired
  | tokenMalformed
  | tokenTypeMismatch
  | tokenNotFound
  | weakPassword
  | duplicateEmail
  | http (code : Nat) (detail : String)
deriving DecidableEq

/-- Modelled from the spec: the claims carried by a signed bearer token
(subject id, email, group, expiry). -/
structure TokenClaims where
  sub : Nat
  email : String
  group : UserGroupEnum
  exp : Nat
deriving DecidableEq

/-- Modelled from the spec: a self-contained signed structure; the
`signedWith` field stands for the signature (a token verifies iff it was
signed with the service's secret). -/
structure SignedToken where
  claims : TokenClaims
  type : TokenType
  signedWith : Nat
deriving DecidableEq

/-- Row of the `users` table (`UserModel`). -/
structure UserModel where
  id : Nat
  email : String
  hashed_password : String
  is_active : Bool
  group_id : Nat
deriving DecidableEq

/-- Row of the `user_groups` table (`UserGroupModel`). -/
structure UserGroupModel where
  id : Nat
  name : UserGroupEnum
deriving DecidableEq

/-- Row of the `activation_tokens` table (`ActivationTokenModel`). -/
structure ActivationTokenModel where
  token : String
  user_id : Nat
  expires_at : Nat
deriving DecidableEq

/-- Row of the `password_reset_tokens` table (`PasswordResetTokenModel`). -/
structure PasswordResetTokenModel where
  token : String
  user_id : Nat
  expires_at : Nat
deriving DecidableEq

/-- Row of the `refresh_tokens` table (`RefreshTokenModel`); the `token`
column stores the signed refresh bearer token handed to the client. -/
structure RefreshTokenModel where
  token : SignedToken
  user_id : Nat
  expires_at : Nat
deriving DecidableEq

/-- Date value for `datetime.date` (profile date of birth). -/
structure PyDate where
  year : Nat
  month : Nat
  day : Nat
deriving DecidableEq

/-- Profile form data validated by `ProfileCreateSchema`. -/
structure ProfileData where
  first_name : String
  last_name : String
  gender : String
  date_of_birth : PyDate
  info : Option String
deriving DecidableEq

/-- Row of the user-profile table (`UserProfileModel`). -/
structure UserProfileModel where
  user_id : Nat
  data : ProfileData
  avatar : String
deriving DecidableEq

/-- Payload extracted from the access bearer token in the profiles route
(`TokenPayload` from `src/security/token_manager.py`, not under `src/`:
modelled from the spec as subject id plus group). -/
structure TokenPayload where
  sub : Nat
  group : UserGroupEnum
deriving DecidableEq

/-- The transactional record store: one list of rows per table. -/
structure DB where
  users : List UserModel
  user_groups : List UserGroupModel
  activation_tokens : List ActivationTokenModel
  password_reset_tokens : List PasswordResetTokenModel
  refresh_tokens : List RefreshTokenModel
  profiles : List UserProfileModel
deriving DecidableEq

/-- Pair of bearer tokens returned by login and refresh (`TokensSchema`). -/
structure TokensSchema where
  access_token : SignedToken
  refresh_token : SignedToken
deriving DecidableEq

/-- Modelled from the spec: `TokenCodec.decode(signed_token, now,
expected_type)` (the `JWTAuthManagerInterface` implementation is not under
`src/`): fails `TokenMalformed` if the signature does not verify,
`TokenExpired` if `now > expiry`, `TokenTypeMismatch` if the type
discriminator differs from the expected type. -/
def decode_token (secret now : Nat) (expected : TokenType) (tok : SignedToken) :
    Except ApiError TokenClaims :=
  if tok.signedWith ≠ secret then .error .tokenMalformed
  else if tok.claims.exp < now then .error .tokenExpired
  else if tok.type ≠ expected then .error .tokenTypeMismatch
  else .ok tok.claims

/-- Endpoint `AccountsRouter.login` (`src/routes/accounts.py:274`).  The password
check `verify`, and the two bearer tokens produced by the JWT manager, are
parameters (their implementations are not under `src/`); on success a
`RefreshTokenModel` row holding the refresh bearer token is inserted. -/
def login (verify : String → String → Bool) (email password : String)
    (access_tok refresh_tok : SignedToken) (refresh_exp : Nat) (db : DB) :
    Except ApiError TokensSchema × DB :=
  match db.users.find? (fun u => u.email == email) with
  | none => (.error .incorrectCredentials, db)
  | some user =>
    if ¬ verify password user.hashed_password then (.error .incorrectCredentials, db)
    else if ¬ user.is_active then (.error .inactiveUser, db)
    else
      (.ok ⟨access_tok, refresh_tok⟩,
        { db with refresh_tokens :=
            db.refresh_tokens ++ [⟨refresh_tok, user.id, refresh_exp⟩] })

/-- Updates the `is_active` flag of the user row with the given id
(the ORM mutation `user.is_active = True` followed by commit). -/
def setActive (uid : Nat) (users : List UserModel) : List UserModel :=
  users.map (fun u => if u.id == uid then { u with is_active := true } else u)

/-- Endpoint `activate_account` (`src/routes/accounts.py:118`): looks up an
unexpired activation token by value, 404s if the owning user vanished,
otherwise flips `is_active` and deletes the token row in one transaction. -/
def activate_account (now : Nat) (token : String) (db : DB) :
    Except ApiError UserModel × DB :=
  match db.activation_tokens.find?
      (fun t => t.token == token && decide (now < t.expires_at)) with
  | none => (.error .tokenExpired, db)
  | some activation_token =>
    match db.users.find? (fun u => u.id == activation_token.user_id) with
    | none => (.error (.http 404 "User not found."), db)
    | some user =>
      (.ok { user with is_active := true },
        { db with
            users := setActive activation_token.user_id db.users,
            activation_tokens := db.activation_tokens.erase activation_token })

/-- Endpoint `request_password_reset_token` (`src/routes/accounts.py:168`): for an
unknown email returns a generic message and performs no writes; otherwise
deletes all reset tokens of the user, inserts a fresh one (its opaque
value and expiry are parameters), and returns a success message. -/
def request_password_reset_token (email new_token : String) (reset_exp : Nat)
    (db : DB) : String × DB :=
  match db.users.find? (fun u => u.email == email) with
  | none => ("If a user with that email exists, a reset link has been sent.", db)
  | some user =>
    ("Password reset link sent successfully.",
      { db with password_reset_tokens :=
          (db.password_reset_tokens.filter (fun t => t.user_id != user.id))
            ++ [⟨new_token, user.id, reset_exp⟩] })

/-- Endpoint `reset_password` (`src/routes/accounts.py:216`).  Password strength
validation (`validate_password_strength`) and hashing are parameters
(modelled from the spec; their modules are not under `src/`): validates
strength, consumes an unexpired reset token by value, replaces the user's
password hash and deletes the token row in one transaction. -/
def reset_password (strong : String → Bool) (hashFn : String → String)
    (now : Nat) (token new_password : String) (db : DB) :
    Except ApiError String × DB :=
  if ¬ strong new_password then (.error .weakPassword, db)
  else
    match db.password_reset_tokens.find?
        (fun t => t.token == token && decide (now < t.expires_at)) with
    | none => (.error .tokenExpired, db)
    | some password_reset_token =>
      match db.users.find? (fun u => u.id == password_reset_token.user_id) with
      | none => (.error (.http 404 "User not found."), db)
      | some _user =>
        (.ok "Password has been reset successfully.",
          { db with
              users := db.users.map (fun u =>
                if u.id == password_reset_token.user_id then
                  { u with hashed_password := hashFn new_password } else u),
              password_reset_tokens :=
                db.password_reset_tokens.erase password_reset_token })

/-- Endpoint `AccountsRouter.refresh_token` (`src/routes/accounts.py:314`): decodes
the refresh bearer (expected type refresh per the spec's TokenCodec),
looks up the matching unexpired `RefreshTokenModel` row by token value and
subject, 404s if the user vanished, otherwise rotates: deletes the old
row and inserts a row for the new refresh bearer in one transaction. -/
def refresh_token (secret now : Nat) (bearer : SignedToken)
    (new_access new_refresh : SignedToken) (new_exp : Nat) (db : DB) :
    Except ApiError TokensSchema × DB :=
  match decode_token secret now .refresh bearer with
  | .error e => (.error e, db)
  | .ok payload =>
    match db.refresh_tokens.find? (fun t =>
        t.token == bearer && t.user_id == payload.sub
          && decide (now < t.expires_at)) with
    | none => (.error .tokenExpired, db)
    | some refresh_token_db =>
      match db.users.find? (fun u => u.id == payload.sub) with
      | none => (.error (.http 404 "User not found."), db)
      | some user =>
        (.ok ⟨new_access, new_refresh⟩,
          { db with refresh_tokens :=
              (db.refresh_tokens.erase refresh_token_db)
                ++ [⟨new_refresh, user.id, new_exp⟩] })

/-- Endpoint `AccountsRouter.logout` (`src/routes/accounts.py:367`): decodes the
refresh bearer, looks up the matching `RefreshTokenModel` row by token
value and subject (no expiry predicate here), deletes it if present, and
otherwise raises `TokenValidationException` (spec: `TokenNotFound`). -/
def logout (secret now : Nat) (bearer : SignedToken) (db : DB) :
    Except ApiError String × DB :=
  match decode_token secret now .refresh bearer with
  | .error e => (.error e, db)
  | .ok payload =>
    match db.refresh_tokens.find? (fun t =>
        t.token == bearer && t.user_id == payload.sub) with
    | none => (.error .tokenNotFound, db)
    | some refresh_token_db =>
      (.ok "Logged out successfully.",
        { db with refresh_tokens := db.refresh_tokens.erase refresh_token_db })

/-- Endpoint `register_user` (`src/routes/accounts.py:60`).  The email-uniqueness
and password-strength validators are modelled from the spec
(`DuplicateEmail`, `WeakPassword`; their module is not under `src/`), as
are the generated user id, opaque activation value and its expiry (all
parameters): inserts an inactive user in the default group and one
activation token row. -/
def register_user (strong : String → Bool) (hashFn : String → String)
    (email password : String) (activation_value : String)
    (activation_exp new_user_id : Nat) (db : DB) :
    Except ApiError UserModel × DB :=
  if (db.users.find? (fun u => u.email == email)).isSome then
    (.error .duplicateEmail, db)
  else if ¬ strong password then (.error .weakPassword, db)
  else
    match db.user_groups.find? (fun g => g.name == UserGroupEnum.user) with
    | none => (.error (.http 500 "Default user group not found."), db)
    | some user_group =>
      let user : UserModel :=
        ⟨new_user_id, email, hashFn password, false, user_group.id⟩
      (.ok user,
        { db with
            users := db.users ++ [user],
            activation_tokens := db.activation_tokens
              ++ [⟨activation_value, new_user_id, activation_exp⟩] })

/-- Endpoint `ProfilesRouter.create_user_profile` (`src/routes/profiles.py:39`).
The avatar validation outcome (`validate_image`, which inspects a real
file with PIL) and the S3 upload outcome are oracle parameters, as is the
resulting avatar URL: authorizes (admin or self), requires an existing
active user and no existing profile, then inserts the profile row. -/
def create_user_profile (payload : TokenPayload) (user_id : Nat)
    (profile_data : ProfileData) (avatar_check : Except ApiError Unit)
    (s3_ok : Bool) (avatar_url : String) (db : DB) :
    Except ApiError UserProfileModel × DB :=
  if payload.group != UserGroupEnum.admin && payload.sub != user_id then
    (.error (.http 403 "You don\x27t have permission to edit this profile."), db)
  else
    match db.users.find? (fun u => u.id == user_id) with
    | none => (.error .inactiveUser, db)
    | some user =>
      if ¬ user.is_active then (.error .inactiveUser, db)
      else if (db.profiles.find? (fun p => p.user_id == user_id)).isSome then
        (.error (.http 400 "User already has a profile."), db)
      else
        match avatar_check with
        | .error e => (.error e, db)
        | .ok _ =>
          if ¬ s3_ok then
            (.error (.http 500 "Failed to upload avatar. Please try again later."), db)
          else
            (.ok ⟨user_id, profile_data, avatar_url⟩,
              { db with profiles := db.profiles ++ [⟨user_id, profile_data, avatar_url⟩] })

/-- Python tuple comparison `(a.month, a.day) < (b.month, b.day)`. -/
def monthDayLt (a b : PyDate) : Bool :=
  a.month < b.month || (a.month == b.month && a.day < b.day)

/-- Python date comparison `a < b` (lexicographic on year, month, day). -/
def dateLt (a b : PyDate) : Bool :=
  a.year < b.year || (a.year == b.year && monthDayLt a b)

/-- Age computation of `validate_birth_date`:
`today.year - dob.year - ((today.month, today.day) < (dob.month, dob.day))`. -/
def computed_age (today dob : PyDate) : Int :=
  (today.year : Int) - (dob.year : Int) - (if monthDayLt today dob then 1 else 0)

/-- Validator `validate_birth_date` (`src/validation/profile.py:34`): 422 if the
computed age is below 18, then 422 if the date lies in the future,
otherwise returns the date unchanged. -/
def validate_birth_date (today date_of_birth : PyDate) : Except ApiError PyDate :=
  if computed_age today date_of_birth < 18 then
    .error (.http 422 "User must be at least 18 years old.")
  else if dateLt today date_of_birth then
    .error (.http 422 "Date of birth cannot be in the future.")
  else .ok date_of_birth

/-- One lifecycle operation of the service, with all external inputs
(current time, generated token values, validator outcomes) as data, so
that a trace of calls is a list of operations. -/
inductive Op where
  | opRegister (strong : String → Bool) (hashFn : String → String)
      (email password activation_value : String) (activation_exp new_user_id : Nat)
  | opActivate (now : Nat) (token : String)
  | opLogin (verify : String → String → Bool) (email password : String)
      (access_tok refresh_tok : SignedToken) (refresh_exp : Nat)
  | opRequestReset (email new_token : String) (reset_exp : Nat)
  | opResetPassword (strong : String → Bool) (hashFn : String → String)
      (now : Nat) (token new_password : String)
  | opRefresh (secret now : Nat) (bearer new_access new_refresh : SignedToken) (new_exp : Nat)
  | opLogout (secret now : Nat) (bearer : SignedToken)
  | opCreateProfile (payload : TokenPayload) (user_id : Nat) (pd : ProfileData)
      (avatar_check : Except ApiError Unit) (s3_ok : Bool) (avatar_url : String)

/-- State reached after one operation (error paths leave the store as the
operation left it at the raise point). -/
def applyOp (db : DB) : Op → DB
  | .opRegister s h e p av ae ni => (register_user s h e p av ae ni db).2
  | .opActivate n t => (activate_account n t db).2
  | .opLogin v e p a r re => (login v e p a r re db).2
  | .opRequestReset e nt re => (request_password_reset_token e nt re db).2
  | .opResetPassword s h n t np => (reset_password s h n t np db).2
  | .opRefresh sec n b na nr ne => (refresh_token sec n b na nr ne db).2
  | .opLogout sec n b => (logout sec n b db).2
  | .opCreateProfile pl uid pd ac s3 au => (create_user_profile pl uid pd ac s3 au db).2

/-- State reached after a sequence of operations. -/
def applyOps (db : DB) (ops : List Op) : DB := ops.foldl applyOp db

/-- Freshness of an operation with respect to a bearer token value `t`:
the opaque refresh bearer values it mints (cryptographically random per
the spec's global invariant) differ from `t`. -/
def OpFreshFor (t : SignedToken) : Op → Prop
  | .opLogin _ _ _ _ refresh_tok _ => refresh_tok ≠ t
  | .opRefresh _ _ _ _ new_refresh _ => new_refresh ≠ t
  | _ => True

/-- No stored refresh-token row holds the bearer value `t`. -/
def NoRefreshValue (t : SignedToken) (db : DB) : Prop :=
  ∀ r ∈ db.refresh_tokens, r.token ≠ t

theorem countP_le_one_erase {α : Type} [DecidableEq α] (p : α → Bool)
    (l : List α) (x : α) (hx : x ∈ l) (hpx : p x = true)
    (h1 : l.countP p ≤ 1) : ∀ y ∈ l.erase x, p y = false := by
  have hperm : l.Perm (x :: l.erase x) := List.perm_cons_erase hx
  have hcount := hperm.countP_eq p
  rw [List.countP_cons_of_pos p _ hpx] at hcount
  have hz : (l.erase x).countP p = 0 := by omega
  intro y hy
  have := List.countP_eq_zero.mp hz y hy
  simpa using this

theorem activate_account_refresh_tokens (n : Nat) (t : String) (db : DB) :
    (activate_account n t db).2.refresh_tokens = db.refresh_tokens := by
  unfold activate_account
  split
  · rfl
  · split <;> rfl

theorem register_user_refresh_tokens (s : String → Bool) (h : String → String)
    (e p av : String) (ae ni : Nat) (db : DB) :
    (register_user s h e p av ae ni db).2.refresh_tokens = db.refresh_tokens := by
  unfold register_user
  split
  · rfl
  · split
    · rfl
    · split <;> rfl

theorem request_password_reset_token_refresh_tokens (e nt : String) (re : Nat)
    (db : DB) :
    (request_password_reset_token e nt re db).2.refresh_tokens
      = db.refresh_tokens := by
  unfold request_password_reset_token
  split <;> rfl

theorem reset_password_refresh_tokens (s : String → Bool) (h : String → String)
    (n : Nat) (t np : String) (db : DB) :
    (reset_password s h n t np db).2.refresh_tokens = db.refresh_tokens := by
  unfold reset_password
  split
  · rfl
  · split
    · rfl
    · split <;> rfl

theorem create_user_profile_refresh_tokens (pl : TokenPayload) (uid : Nat)
    (pd : ProfileData) (ac : Except ApiError Unit) (s3 : Bool) (au : String)
    (db : DB) :
    (create_user_profile pl uid pd ac s3 au db).2.refresh_tokens
      = db.refresh_tokens := by
  unfold create_user_profile
  repeat' split
  all_goals rfl

theorem login_refresh_tokens_sub (v : String → String → Bool) (e p : String)
    (a rt : SignedToken) (re : Nat) (db : DB) :
    ∀ r ∈ (login v e p a rt re db).2.refresh_tokens,
      r ∈ db.refresh_tokens ∨ r.token = rt := by
  intro r hr
  unfold login at hr
  split at hr
  · exact Or.inl hr
  · split at hr
    · exact Or.inl hr
    · split at hr
      · exact Or.inl hr
      · simp only [List.mem_append, List.mem_singleton] at hr
        rcases hr with h | h
        · exact Or.inl h
        · right; rw [h]

theorem refresh_token_refresh_tokens_sub (sec n : Nat) (b na nr : SignedToken)
    (ne : Nat) (db : DB) :
    ∀ r ∈ (refresh_token sec n b na nr ne db).2.refresh_tokens,
      r ∈ db.refresh_tokens ∨ r.token = nr := by
  intro r hr
  unfold refresh_token at hr
  split at hr
  · exact Or.inl hr
  · split at hr
    · exact Or.inl hr
    · split at hr
      · exact Or.inl hr
      · simp only [List.mem_append, List.mem_singleton] at hr
        rcases hr with h | h
        · exact Or.inl (List.mem_of_mem_erase h)
        · right; rw [h]

theorem logout_refresh_tokens_sub (sec n : Nat) (b : SignedToken) (db : DB) :
    ∀ r ∈ (logout sec n b db).2.refresh_tokens, r ∈ db.refresh_tokens := by
  intro r hr
  unfold logout at hr
  split at hr
  · exact hr
  · split at hr
    · exact hr
    · exact List.mem_of_mem_erase hr

theorem applyOp_preserves_noRefreshValue (t : SignedToken) (op : Op) (db : DB)
    (hfresh : OpFreshFor t op) (h : NoRefreshValue t db) :
    NoRefreshValue t (applyOp db op) := by
  cases op with
  | opRegister s hf e p av ae ni =>
    intro r hr
    rw [applyOp, register_user_refresh_tokens] at hr
    exact h r hr
  | opActivate n tk =>
    intro r hr
    rw [applyOp, activate_account_refresh_tokens] at hr
    exact h r hr
  | opLogin v e p a rt re =>
    intro r hr
    rw [applyOp] at hr
    rcases login_refresh_tokens_sub v e p a rt re db r hr with hm | htok
    · exact h r hm
    · rw [htok]; exact hfresh
  | opRequestReset e nt re =>
    intro r hr
    rw [applyOp, request_password_reset_token_refresh_tokens] at hr
    exact h r hr
  | opResetPassword s hf n tk np =>
    intro r hr
    rw [applyOp, reset_password_refresh_tokens] at hr
    exact h r hr
  | opRefresh sec n b na nr ne =>
    intro r hr
    rw [applyOp] at hr
    rcases refresh_token_refresh_tokens_sub sec n b na nr ne db r hr with hm | htok
    · exact h r hm
    · rw [htok]; exact hfresh
  | opLogout sec n b =>
    intro r hr
    rw [applyOp] at hr
    exact h r (logout_refresh_tokens_sub sec n b db r hr)
  | opCreateProfile pl uid pd ac s3 au =>
    intro r hr
    rw [applyOp, create_user_profile_refresh_tokens] at hr
    exact h r hr

theorem applyOps_preserves_noRefreshValue (t : SignedToken) (ops : List Op)
    (db : DB) (hops : ∀ op ∈ ops, OpFreshFor t op) (h : NoRefreshValue t db) :
    NoRefreshValue t (applyOps db ops) := by
  induction ops generalizing db with
  | nil => exact h
  | cons op rest ih =>
    exact ih _ (fun o ho => hops o (List.mem_cons_of_mem _ ho))
      (applyOp_preserves_noRefreshValue t op db (hops op (List.mem_cons_self _ _)) h)

theorem decode_token_ok_facts (secret now : Nat) (expected : TokenType)
    (tok : SignedToken) (c : TokenClaims)
    (h : decode_token secret now expected tok = .ok c) :
    tok.signedWith = secret ∧ now ≤ tok.claims.exp ∧ tok.type = expected
      ∧ c = tok.claims := by
  unfold decode_token at h
  split at h
  · exact absurd h (by simp)
  rename_i h1
  split at h
  · exact absurd h (by simp)
  rename_i h2
  split at h
  · exact absurd h (by simp)
  rename_i h3
  simp only [Except.ok.injEq] at h
  exact ⟨not_not.mp h1, Nat.le_of_not_lt h2, not_not.mp h3, h.symm⟩

theorem refresh_token_ok_facts (sec n : Nat) (b na nr : SignedToken) (ne : Nat)
    (db db1 : DB) (res : TokensSchema)
    (h : refresh_token sec n b na nr ne db = (.ok res, db1)) :
    b.signedWith = sec ∧ b.type = .refresh ∧
    ∃ row uid, row ∈ db.refresh_tokens ∧ row.token = b ∧
      db1.refresh_tokens = (db.refresh_tokens.erase row) ++ [⟨nr, uid, ne⟩] := by
  unfold refresh_token at h
  split at h
  · exact absurd h (by simp)
  all_goals rename_i payload hdec
  split at h
  · exact absurd h (by simp)
  all_goals rename_i row hfind
  split at h
  · exact absurd h (by simp)
  rename_i user huser
  obtain ⟨hsig, _, htype, _⟩ := decode_token_ok_facts sec n .refresh b payload hdec
  have hmem := List.mem_of_find?_eq_some hfind
  have hpred := List.find?_some hfind
  simp only [Bool.and_eq_true, beq_iff_eq, decide_eq_true_eq] at hpred
  have hdb1 : db1 = { db with refresh_tokens :=
      (db.refresh_tokens.erase row) ++ [⟨nr, user.id, ne⟩] } := by
    have := congrArg Prod.snd h
    simpa using this.symm
  exact ⟨hsig, htype, row, user.id, hmem, hpred.1.1, by rw [hdb1]⟩

/-- Concrete user group table used by the example states. -/
def exGroups : List UserGroupModel := [⟨1, .user⟩]

/-- Concrete inactive credential. -/
def exInactiveUser : UserModel := ⟨1, "alice@example.com", "s3cret", false, 1⟩

/-- Concrete active credential. -/
def exActiveUser : UserModel := ⟨1, "alice@example.com", "s3cret", true, 1⟩

/-- Concrete refresh bearer token for user 1, signed with secret 42. -/
def exBearer : SignedToken := ⟨⟨1, "alice@example.com", .user, 1000⟩, .refresh, 42⟩

/-- Concrete access bearer token for user 1, signed with secret 42. -/
def exAccess : SignedToken := ⟨⟨1, "alice@example.com", .user, 300⟩, .access, 42⟩

/-- Concrete freshly minted refresh bearer (differs from `exBearer`). -/
def exNewRefresh : SignedToken := ⟨⟨1, "alice@example.com", .user, 2000⟩, .refresh, 42⟩

/-- Concrete freshly minted access bearer. -/
def exNewAccess : SignedToken := ⟨⟨1, "alice@example.com", .user, 1300⟩, .access, 42⟩

/-- Store with one inactive credential and no tokens. -/
def exDbInactive : DB := ⟨[exInactiveUser], exGroups, [], [], [], []⟩

/-- Store with one active credential holding one logged-in session. -/
def exDbSession : DB := ⟨[exActiveUser], exGroups, [], [], [⟨exBearer, 1, 500⟩], []⟩

/-- C1 counterexample: the store holds an inactive credential for
`alice@example.com`, yet login with a password that does not match the
stored hash fails with `IncorrectCredentials`, not `InactiveAccount` —
the password check at `src/routes/accounts.py:285` runs before the
active-flag check at line 290, so the claim's "regardless of whether the
supplied plaintext password matches" is false. -/
theorem login_inactive_wrong_password_counterexample :
    exDbInactive.users.find? (fun x => x.email == "alice@example.com")
        = some exInactiveUser
    ∧ exInactiveUser.is_active = false
    ∧ (login (fun p h => p == h) "alice@example.com" "wrong" exAccess exBearer
        100 exDbInactive).1 = .error .incorrectCredentials
    ∧ ApiError.incorrectCredentials ≠ ApiError.inactiveUser := by
  exact ⟨rfl, rfl, rfl, by decide⟩

/-- C1 (amended): for a credential with `active = false`, login fails with
`InactiveAccount` when the supplied password verifies against the stored
hash, and with `InvalidCredentials` when it does not — the password check
precedes the active-flag check. -/
theorem login_inactive_behavior
    (verify : String → String → Bool) (email password : String)
    (a rt : SignedToken) (re : Nat) (db : DB) (u : UserModel)
    (hfind : db.users.find? (fun x => x.email == email) = some u)
    (hinactive : u.is_active = false) :
    (verify password u.hashed_password = true →
      (login verify email password a rt re db).1 = .error .inactiveUser)
    ∧ (verify password u.hashed_password = false →
      (login verify email password a rt re db).1 = .error .incorrectCredentials) := by
  constructor
  · intro hv
    simp [login, hfind, hv, hinactive]
  · intro hv
    simp [login, hfind, hv]

/-- C1 witness: with the matching password, login on the inactive example
store fails with `InactiveAccount`. -/
theorem login_inactive_behavior_witness :
    (login (fun p h => p == h) "alice@example.com" "s3cret" exAccess exBearer
        100 exDbInactive).1 = .error .inactiveUser := by
  exact (login_inactive_behavior (fun p h => p == h) "alice@example.com" "s3cret"
    exAccess exBearer 100 exDbInactive exInactiveUser rfl rfl).1 rfl

/-- C3: once `RefreshSession` succeeds on a refresh bearer token, every
subsequent `RefreshSession` presenting the same bearer fails with
`TokenExpired`, in every state reachable by further lifecycle operations
whose freshly minted refresh values differ from that bearer.  Needs the
store invariant that at most one row holds the bearer's value (token
values are unique per the spec). -/
theorem refresh_rotation_replay_fails
    (secret now new_exp : Nat) (bearer new_access new_refresh : SignedToken)
    (db db1 : DB) (res : TokensSchema)
    (hrun : refresh_token secret now bearer new_access new_refresh new_exp db
      = (.ok res, db1))
    (huniq : db.refresh_tokens.countP (fun r => r.token == bearer) ≤ 1)
    (hfresh : new_refresh ≠ bearer)
    (ops : List Op) (hops : ∀ op ∈ ops, OpFreshFor bearer op)
    (now2 new_exp2 : Nat) (na2 nr2 : SignedToken) :
    (refresh_token secret now2 bearer na2 nr2 new_exp2 (applyOps db1 ops)).1
      = .error .tokenExpired := by
  obtain ⟨hsig, htype, row, uid, hmem, hrtok, hdb1⟩ :=
    refresh_token_ok_facts secret now bearer new_access new_refresh new_exp db
      db1 res hrun
  have hno1 : NoRefreshValue bearer db1 := by
    intro r hr
    rw [hdb1] at hr
    simp only [List.mem_append, List.mem_singleton] at hr
    rcases hr with h | h
    · have hf := countP_le_one_erase (fun r => r.token == bearer)
        db.refresh_tokens row hmem (by simp [hrtok]) huniq r h
      simpa using hf
    · rw [h]
      simpa using hfresh
  have hnoF := applyOps_preserves_noRefreshValue bearer ops db1 hops hno1
  by_cases hlt : bearer.claims.exp < now2
  · simp [refresh_token, decode_token, hsig, hlt]
  · have hfind : (applyOps db1 ops).refresh_tokens.find?
        (fun t => t.token == bearer && t.user_id == bearer.claims.sub
          && decide (now2 < t.expires_at)) = none := by
      rw [List.find?_eq_none]
      intro x hx
      simp [hnoF x hx]
    simp [refresh_token, decode_token, hsig, htype, hlt, hfind]

/-- C3 witness: a concrete successful refresh on the session store,
followed by a logout attempt, after which replaying the consumed bearer
fails with `TokenExpired`. -/
theorem refresh_rotation_replay_fails_witness :
    (refresh_token 42 20 exBearer exNewAccess exNewRefresh 700
        (applyOps (⟨[exActiveUser], exGroups, [], [], [⟨exNewRefresh, 1, 600⟩], []⟩ : DB)
          [Op.opLogout 42 15 exBearer])).1 = .error .tokenExpired := by
  exact refresh_rotation_replay_fails 42 10 600 exBearer exNewAccess exNewRefresh
    exDbSession ⟨[exActiveUser], exGroups, [], [], [⟨exNewRefresh, 1, 600⟩], []⟩
    ⟨exNewAccess, exNewRefresh⟩ rfl (by decide) (by decide)
    [Op.opLogout 42 15 exBearer]
    (by intro op hop; rw [List.mem_singleton] at hop; subst hop; exact trivial)
    20 700 exNewAccess exNewRefresh

/-- C2: a password-reset request on an unknown email leaves the store
untouched, but the returned message differs from the one returned for a
known email, so the two runs are distinguishable to the caller — contrary
to the route's own anti-enumeration comment
(`src/routes/accounts.py:180`). -/
theorem reset_request_unknown_email_distinguishable :
    request_password_reset_token "bob@example.com" "tok-1" 900 exDbSession
      = ("If a user with that email exists, a reset link has been sent.",
         exDbSession)
    ∧ (request_password_reset_token "alice@example.com" "tok-1" 900 exDbSession).1
      = "Password reset link sent successfully."
    ∧ "If a user with that email exists, a reset link has been sent."
      ≠ "Password reset link sent successfully." := by
  exact ⟨rfl, rfl, by decide⟩

/-- C4: a present, unexpired activation token activates the account on
first use (active flag set, token row deleted in the same transaction),
and a second call with the same token value fails with `TokenExpired`.
Needs the store invariant that the token value occurs in at most one
activation row. -/
theorem activation_token_single_use
    (now now2 : Nat) (tok : String) (db : DB)
    (row : ActivationTokenModel) (u : UserModel)
    (hfind : db.activation_tokens.find?
        (fun t => t.token == tok && decide (now < t.expires_at)) = some row)
    (huser : db.users.find? (fun x => x.id == row.user_id) = some u)
    (huniq : db.activation_tokens.countP (fun t => t.token == tok) ≤ 1) :
    activate_account now tok db
      = (.ok { u with is_active := true },
         { db with users := setActive row.user_id db.users,
                   activation_tokens := db.activation_tokens.erase row })
    ∧ (activate_account now2 tok
        { db with users := setActive row.user_id db.users,
                  activation_tokens := db.activation_tokens.erase row }).1
      = .error .tokenExpired := by
  have hrow : (row.token == tok) = true := by
    have h := List.find?_some hfind
    simp only [Bool.and_eq_true] at h
    exact h.1
  constructor
  · simp [activate_account, hfind, huser]
  · have hnone : (db.activation_tokens.erase row).find?
        (fun t => t.token == tok && decide (now2 < t.expires_at)) = none := by
      rw [List.find?_eq_none]
      intro x hx
      have hfx := countP_le_one_erase (fun t => t.token == tok)
        db.activation_tokens row (List.mem_of_find?_eq_some hfind) hrow huniq x hx
      simp [hfx]
    simp [activate_account, hnone]

/-- Store with one inactive credential and a pending activation token. -/
def exDbPending : DB := ⟨[exInactiveUser], exGroups, [⟨"act-1", 1, 400⟩], [], [], []⟩

/-- C4 witness: activating with the concrete pending token succeeds, and a
second activation call with the same value fails with `TokenExpired`. -/
theorem activation_token_single_use_witness :
    (activate_account 10 "act-1" exDbPending).1
      = .ok { exInactiveUser with is_active := true }
    ∧ (activate_account 11 "act-1" (activate_account 10 "act-1" exDbPending).2).1
      = .error .tokenExpired := by
  have h := activation_token_single_use 10 11 "act-1" exDbPending
    ⟨"act-1", 1, 400⟩ exInactiveUser rfl rfl (by decide)
  refine ⟨?_, ?_⟩
  · rw [h.1]
  · rw [h.1]
    exact h.2

/-- C5: a second password-reset request for the same credential removes
the previously issued reset token, leaves exactly one reset row for the
credential, and the old token value subsequently fails `ResetPassword`
with `TokenExpired` regardless of its expiry timestamp.  Needs the store
invariant that the old token value only occurs in rows of this
credential (token values are unique per the spec). -/
theorem second_reset_request_invalidates_first
    (emailA new_token : String) (reset_exp : Nat) (db : DB)
    (u : UserModel) (old : PasswordResetTokenModel)
    (huser : db.users.find? (fun x => x.email == emailA) = some u)
    (hmemOld : old ∈ db.password_reset_tokens)
    (hvals : ∀ r ∈ db.password_reset_tokens, r.token = old.token → r.user_id = u.id)
    (hnew : new_token ≠ old.token) :
    old ∉ (request_password_reset_token emailA new_token reset_exp db).2.password_reset_tokens
    ∧ ((request_password_reset_token emailA new_token reset_exp db).2.password_reset_tokens.filter
        (fun r => r.user_id == u.id)) = [⟨new_token, u.id, reset_exp⟩]
    ∧ ∀ (strong : String → Bool) (hashFn : String → String) (now : Nat) (npw : String),
        strong npw = true →
        (reset_password strong hashFn now old.token npw
          (request_password_reset_token emailA new_token reset_exp db).2).1
          = .error .tokenExpired := by
  have holdUid : old.user_id = u.id := hvals old hmemOld rfl
  have hdb2 : (request_password_reset_token emailA new_token reset_exp db).2.password_reset_tokens
      = (db.password_reset_tokens.filter (fun t => t.user_id != u.id))
        ++ [⟨new_token, u.id, reset_exp⟩] := by
    simp [request_password_reset_token, huser]
  refine ⟨?_, ?_, ?_⟩
  · rw [hdb2]
    simp only [List.mem_append, List.mem_singleton, List.mem_filter]
    rintro (⟨_, hne⟩ | heq)
    · simp [holdUid] at hne
    · have : old.token = new_token := by rw [heq]
      exact hnew this.symm
  · rw [hdb2, List.filter_append]
    have h1 : (db.password_reset_tokens.filter (fun t => t.user_id != u.id)).filter
        (fun r => r.user_id == u.id) = [] := by
      rw [List.filter_eq_nil_iff]
      intro a ha
      have := (List.mem_filter.mp ha).2
      simp at this ⊢
      exact this
    rw [h1]
    simp
  · intro strong hashFn now npw hstrong
    have hnone : ((request_password_reset_token emailA new_token reset_exp db).2.password_reset_tokens).find?
        (fun t => t.token == old.token && decide (now < t.expires_at)) = none := by
      rw [hdb2, List.find?_eq_none]
      intro x hx
      simp only [List.mem_append, List.mem_singleton, List.mem_filter] at hx
      rcases hx with ⟨hxm, hxne⟩ | hxe
      · by_cases hxt : x.token = old.token
        · have := hvals x hxm hxt
          simp [this] at hxne
        · simp [hxt]
      · rw [hxe]
        simp
        intro h
        exact absurd h hnew
    simp [reset_password, hstrong, hnone]

/-- Store with one active credential, one reset token and one session. -/
def exDbReset : DB :=
  ⟨[exActiveUser], exGroups, [], [⟨"rst-1", 1, 800⟩], [⟨exBearer, 1, 500⟩], []⟩

/-- C5 witness: after a second reset request on the concrete store, the
old token `rst-1` is gone, exactly one reset row remains for the
credential, and resetting with `rst-1` fails with `TokenExpired` even
though its expiry 800 has not passed at time 20. -/
theorem second_reset_request_invalidates_first_witness :
    (⟨"rst-1", 1, 800⟩ : PasswordResetTokenModel)
      ∉ (request_password_reset_token "alice@example.com" "rst-2" 900 exDbReset).2.password_reset_tokens
    ∧ ((request_password_reset_token "alice@example.com" "rst-2" 900 exDbReset).2.password_reset_tokens.filter
        (fun r => r.user_id == 1)) = [⟨"rst-2", 1, 900⟩]
    ∧ (reset_password (fun _ => true) (fun _ => "H2") 20 "rst-1" "NewPass1"
        (request_password_reset_token "alice@example.com" "rst-2" 900 exDbReset).2).1
      = .error .tokenExpired := by
  have h := second_reset_request_invalidates_first "alice@example.com" "rst-2" 900
    exDbReset exActiveUser ⟨"rst-1", 1, 800⟩ rfl (by decide)
    (by intro r hr h; fin_cases hr; rfl) (by decide)
  exact ⟨h.1, h.2.1, h.2.2 (fun _ => true) (fun _ => "H2") 20 "NewPass1" rfl⟩

/-- C6: a successful `ResetPassword` changes only the credential's
password hash and removes the consumed reset-token row; refresh tokens
(existing sessions), activation tokens, profiles, groups, and all other
user rows are unchanged. -/
theorem reset_password_frame
    (strong : String → Bool) (hashFn : String → String) (now : Nat)
    (tok npw : String) (db db1 : DB) (msg : String)
    (hrun : reset_password strong hashFn now tok npw db = (.ok msg, db1)) :
    db1.refresh_tokens = db.refresh_tokens
    ∧ db1.activation_tokens = db.activation_tokens
    ∧ db1.profiles = db.profiles
    ∧ db1.user_groups = db.user_groups
    ∧ ∃ row, db.password_reset_tokens.find?
          (fun t => t.token == tok && decide (now < t.expires_at)) = some row
        ∧ db1.password_reset_tokens = db.password_reset_tokens.erase row
        ∧ db1.users = db.users.map (fun x =>
            if x.id == row.user_id then { x with hashed_password := hashFn npw }
            else x) := by
  unfold reset_password at hrun
  split at hrun
  · exact absurd hrun (by simp)
  split at hrun
  · exact absurd hrun (by simp)
  rename_i row hfind
  split at hrun
  · exact absurd hrun (by simp)
  have hdb1 : db1 = { db with
      users := db.users.map (fun x =>
        if x.id == row.user_id then { x with hashed_password := hashFn npw }
        else x),
      password_reset_tokens := db.password_reset_tokens.erase row } := by
    have h2 := congrArg Prod.snd hrun
    simpa using h2.symm
  refine ⟨by rw [hdb1], by rw [hdb1], by rw [hdb1], by rw [hdb1],
    row, hfind, by rw [hdb1], by rw [hdb1]⟩

/-- Store state after the witness reset below. -/
def exDbResetAfter : DB :=
  ⟨[{ exActiveUser with hashed_password := "H2" }], exGroups, [], [],
    [⟨exBearer, 1, 500⟩], []⟩

/-- C6 witness: the concrete successful reset on `exDbReset` keeps the
session row and all other state, deleting only the reset token and
replacing the hash. -/
theorem reset_password_frame_witness :
    exDbResetAfter.refresh_tokens = exDbReset.refresh_tokens
    ∧ exDbResetAfter.activation_tokens = exDbReset.activation_tokens
    ∧ exDbResetAfter.profiles = exDbReset.profiles
    ∧ exDbResetAfter.user_groups = exDbReset.user_groups
    ∧ ∃ row, exDbReset.password_reset_tokens.find?
          (fun t => t.token == "rst-1" && decide (20 < t.expires_at)) = some row
        ∧ exDbResetAfter.password_reset_tokens
            = exDbReset.password_reset_tokens.erase row
        ∧ exDbResetAfter.users = exDbReset.users.map (fun x =>
            if x.id == row.user_id then
              { x with hashed_password := (fun _ => "H2") "NewPass1" }
            else x) := by
  exact reset_password_frame (fun _ => true) (fun _ => "H2") 20 "rst-1" "NewPass1"
    exDbReset exDbResetAfter "Password has been reset successfully." rfl

/-- C7: with a decodable refresh bearer, logout succeeds and deletes the
matching row when one exists, and fails with `TokenNotFound` on a repeat
call or whenever no matching row exists.  Needs the store invariant that
at most one row matches the bearer (token values are unique per the
spec). -/
theorem logout_single_use
    (secret now now2 : Nat) (bearer : SignedToken) (db : DB)
    (row : RefreshTokenModel)
    (hsig : bearer.signedWith = secret) (htype : bearer.type = .refresh)
    (hexp : now ≤ bearer.claims.exp) (hexp2 : now2 ≤ bearer.claims.exp)
    (hfind : db.refresh_tokens.find? (fun t =>
        t.token == bearer && t.user_id == bearer.claims.sub) = some row)
    (huniq : db.refresh_tokens.countP (fun t =>
        t.token == bearer && t.user_id == bearer.claims.sub) ≤ 1) :
    logout secret now bearer db
      = (.ok "Logged out successfully.",
         { db with refresh_tokens := db.refresh_tokens.erase row })
    ∧ (logout secret now2 bearer
        { db with refresh_tokens := db.refresh_tokens.erase row }).1
      = .error .tokenNotFound
    ∧ ∀ (db2 : DB) (now3 : Nat), now3 ≤ bearer.claims.exp →
        db2.refresh_tokens.find? (fun t =>
          t.token == bearer && t.user_id == bearer.claims.sub) = none →
        (logout secret now3 bearer db2).1 = .error .tokenNotFound := by
  have hdec : ∀ n : Nat, n ≤ bearer.claims.exp →
      decode_token secret n .refresh bearer = .ok bearer.claims := by
    intro n hn
    unfold decode_token
    rw [if_neg (by simp [hsig]), if_neg (by omega), if_neg (by simp [htype])]
  refine ⟨?_, ?_, ?_⟩
  · simp [logout, hdec now hexp, hfind]
  · have hnone : (db.refresh_tokens.erase row).find? (fun t =>
        t.token == bearer && t.user_id == bearer.claims.sub) = none := by
      rw [List.find?_eq_none]
      intro x hx
      have hfx := countP_le_one_erase _ db.refresh_tokens row
        (List.mem_of_find?_eq_some hfind) (List.find?_some hfind) huniq x hx
      simp [hfx]
    simp [logout, hdec now2 hexp2, hnone]
  · intro db2 now3 h3 hn
    simp [logout, hdec now3 h3, hn]

/-- C7 witness: on the concrete session store, logout succeeds once and a
second logout with the same bearer fails with `TokenNotFound`. -/
theorem logout_single_use_witness :
    logout 42 30 exBearer exDbSession
      = (.ok "Logged out successfully.",
         { exDbSession with refresh_tokens :=
             exDbSession.refresh_tokens.erase ⟨exBearer, 1, 500⟩ })
    ∧ (logout 42 31 exBearer
        { exDbSession with refresh_tokens :=
            exDbSession.refresh_tokens.erase ⟨exBearer, 1, 500⟩ }).1
      = .error .tokenNotFound := by
  have h := logout_single_use 42 30 31 exBearer exDbSession ⟨exBearer, 1, 500⟩
    rfl rfl (by decide) (by decide) rfl (by decide)
  exact ⟨h.1, h.2.1⟩

/-- C8: a structurally valid, unexpired bearer token whose type
discriminator is access is rejected by `RefreshSession` with
`TokenTypeMismatch` — the decode step checks the token's type against the
expected refresh type. -/
theorem access_token_rejected_by_refresh
    (secret now : Nat) (bearer na nr : SignedToken) (new_exp : Nat) (db : DB)
    (hsig : bearer.signedWith = secret) (hexp : now ≤ bearer.claims.exp)
    (htype : bearer.type = .access) :
    (refresh_token secret now bearer na nr new_exp db).1
      = .error .tokenTypeMismatch := by
  have hdec : decode_token secret now .refresh bearer
      = .error .tokenTypeMismatch := by
    unfold decode_token
    rw [if_neg (by simp [hsig]), if_neg (by omega), if_pos (by simp [htype])]
  simp [refresh_token, hdec]

/-- C8 witness: the concrete access token is rejected with
`TokenTypeMismatch` by the refresh endpoint. -/
theorem access_token_rejected_by_refresh_witness :
    (refresh_token 42 30 exAccess exNewAccess exNewRefresh 700 exDbSession).1
      = .error .tokenTypeMismatch := by
  exact access_token_rejected_by_refresh 42 30 exAccess exNewAccess exNewRefresh
    700 exDbSession rfl (by decide) rfl

/-- Concrete profile form data. -/
def exProfileData : ProfileData := ⟨"john", "doe", "man", ⟨1990, 1, 1⟩, none⟩

/-- C9: a non-admin caller whose token subject differs from the path user
id gets a 403 and the store is unchanged; dually, any successful profile
creation was performed by an admin or by the user themself, and the
created row belongs to the path user id. -/
theorem create_profile_requires_admin_or_self
    (payload : TokenPayload) (user_id : Nat) (pd : ProfileData)
    (avatar_check : Except ApiError Unit) (s3_ok : Bool) (avatar_url : String)
    (db : DB) :
    (payload.group ≠ .admin → payload.sub ≠ user_id →
      create_user_profile payload user_id pd avatar_check s3_ok avatar_url db
        = (.error (.http 403 "You don\x27t have permission to edit this profile."),
           db))
    ∧ (∀ p db1,
        create_user_profile payload user_id pd avatar_check s3_ok avatar_url db
          = (.ok p, db1) →
        (payload.group = .admin ∨ payload.sub = user_id) ∧ p.user_id = user_id) := by
  constructor
  · intro hg hs
    have hcond : (payload.group != UserGroupEnum.admin && payload.sub != user_id)
        = true := by simp [hg, hs]
    unfold create_user_profile
    rw [if_pos hcond]
  · intro p db1 h
    unfold create_user_profile at h
    split at h
    · exact absurd h (by simp)
    rename_i hcond
    have hauth : payload.group = .admin ∨ payload.sub = user_id := by
      by_contra hc
      push_neg at hc
      exact hcond (by simp [hc.1, hc.2])
    split at h
    · exact absurd h (by simp)
    split at h
    · exact absurd h (by simp)
    split at h
    · exact absurd h (by simp)
    split at h
    · exact absurd h (by simp)
    split at h
    · exact absurd h (by simp)
    simp only [Prod.mk.injEq, Except.ok.injEq] at h
    exact ⟨hauth, by rw [← h.1]⟩

/-- C9 witness: a concrete non-admin caller (subject 5) creating a profile
for user 7 gets the 403 error and the store is untouched. -/
theorem create_profile_requires_admin_or_self_witness :
    create_user_profile ⟨5, .user⟩ 7 exProfileData (.ok ()) true "url" exDbSession
      = (.error (.http 403 "You don\x27t have permission to edit this profile."),
         exDbSession) := by
  exact (create_profile_requires_admin_or_self ⟨5, .user⟩ 7 exProfileData (.ok ())
    true "url" exDbSession).1 (by decide) (by decide)

theorem future_age_lt (today dob : PyDate) (h : dateLt today dob = true) :
    computed_age today dob < 18 := by
  unfold dateLt at h
  unfold computed_age
  simp only [Bool.or_eq_true, Bool.and_eq_true, beq_iff_eq,
    decide_eq_true_eq] at h
  rcases h with h | ⟨hy, hm⟩
  · split <;> omega
  · rw [hy, if_pos hm]
    omega

/-- C10: `validate_birth_date` returns its input unchanged exactly when
the computed age is at least 18; every rejection is an HTTP 422 error;
and every future date (negative computed age) is rejected with 422 —
concretely with the under-18 message, since that check runs first. -/
theorem validate_birth_date_age_gate (today dob : PyDate) :
    (validate_birth_date today dob = .ok dob ↔ 18 ≤ computed_age today dob)
    ∧ (∀ e, validate_birth_date today dob = .error e → ∃ d, e = .http 422 d)
    ∧ (dateLt today dob = true →
        validate_birth_date today dob
          = .error (.http 422 "User must be at least 18 years old.")) := by
  refine ⟨⟨?_, ?_⟩, ?_, ?_⟩
  · intro h
    by_contra hc
    push_neg at hc
    unfold validate_birth_date at h
    rw [if_pos hc] at h
    exact absurd h (by simp)
  · intro h
    have hnf : ¬ dateLt today dob = true := fun hf => by
      have := future_age_lt today dob hf
      omega
    unfold validate_birth_date
    rw [if_neg (by omega), if_neg hnf]
  · intro e h
    unfold validate_birth_date at h
    split at h
    · simp only [Except.error.injEq] at h
      exact ⟨"User must be at least 18 years old.", h.symm⟩
    split at h
    · simp only [Except.error.injEq] at h
      exact ⟨"Date of birth cannot be in the future.", h.symm⟩
    · exact absurd h (by simp)
  · intro hf
    unfold validate_birth_date
    rw [if_pos (future_age_lt today dob hf)]

/-- C10 witness: a concrete future date of birth is rejected with the 422
error. -/
theorem validate_birth_date_age_gate_witness :
    validate_birth_date ⟨2026, 10, 12⟩ ⟨2030, 1, 1⟩
      = .error (.http 422 "User must be at least 18 years old.") := by
  exact (validate_birth_date_age_gate ⟨2026, 10, 12⟩ ⟨2030, 1, 1⟩).2.2 (by decide)

end Accounts
